import Mathlib

/-!
Verification of the airline-reservation core (`airline_reservation.py`,
`mock_flight_data.py`) against its natural-language specification.

Modelling conventions (shallow embedding):
* SQLite tables are lists of records in rowid (insertion) order; an
  `UPDATE ... WHERE` is a `List.map` guarded on the key, a `DELETE` is a
  `List.filter`, a `SELECT ... fetchone` is a `List.find?`.
* Python's `random.randint a b` and `random.choice` are modelled by an
  explicit draw parameter reduced into the sampled range
  (`randint draw a b = a + draw % (b - a + 1)`), so every value the real
  generator can produce is a value of the model and vice versa.  A whole
  run of the generator takes a draw stream `g : Nat -> Nat`.
* Calendar dates ("%Y-%m-%d" values) are modelled by day indices `Nat`;
  a `datetime` instant is the number of minutes `day * 1440 + h * 60 + m`.
  `strptime` results are passed in as an `Option Nat` (`none` = parse
  failure), matching the try/except fallback to `datetime.now()`.
  Clock-time strings "HH:MM" are kept as genuine strings because the code
  sorts flights lexicographically on them.
* Prices are rationals; `round(x, 2)` is rounding to hundredths (all
  tie-breaking disciplines agree on every value produced here because
  `x * 100` is always an integer).
-/

/-- Decimal digit character, i.e. `chr(48 + d)` for `d < 10`. -/
def digitChar (d : Nat) : Char := Char.ofNat (48 + d)

/-- Python's `str(n)` for a natural number: its decimal digits. -/
def natRepr (n : Nat) : String :=
  if n = 0 then "0" else String.mk ((Nat.digits 10 n).reverse.map digitChar)

/-- The two-character zero-padded rendering `f"{n:02d}"` for `n < 100`. -/
def twoDigit (n : Nat) : List Char := [digitChar (n / 10), digitChar (n % 10)]

/-- `f"{h:02d}:{m:02d}"`, the departure/arrival time strings. -/
def fmtHM (h m : Nat) : String := String.mk (twoDigit h ++ [':'] ++ twoDigit m)

/-- Read an "HH:MM" string back as minutes after midnight (0 on other shapes);
used only to state chronological-order properties of the stored strings. -/
def parseHM (s : String) : Nat :=
  match s.data with
  | [h1, h2, _, m1, m2] =>
      (10 * (h1.toNat - 48) + (h2.toNat - 48)) * 60
        + (10 * (m1.toNat - 48) + (m2.toNat - 48))
  | _ => 0

/-- `random.randint a b`: a value of `[a, b]`, selected by `draw`. -/
def randint (draw a b : Nat) : Nat := a + draw % (b - a + 1)

/-- A decimal digit character read back as a value. -/
def charDigit? (c : Char) : Option Nat :=
  if 48 ≤ c.toNat ∧ c.toNat ≤ 57 then some (c.toNat - 48) else none

/-- Accumulate the value of a digit string. -/
def digitsToNat? (cs : List Char) (acc : Nat) : Option Nat :=
  match cs with
  | [] => some acc
  | c :: rest =>
      match charDigit? c with
      | some d => digitsToNat? rest (acc * 10 + d)
      | none => none

/-- Python's `int(s)` on a decimal string: `none` models the `ValueError`
branch ("Invalid user ID format"). -/
def strToInt? (s : String) : Option Int :=
  match s.data with
  | [] => none
  | '-' :: rest =>
      if rest = [] then none
      else (digitsToNat? rest 0).map (fun n => -(n : Int))
  | cs => (digitsToNat? cs 0).map (fun n => (n : Int))

/-- `round(q, 2)`: round to hundredths. -/
def round2 (q : ℚ) : ℚ := (round (q * 100) : ℚ) / 100

/-- One row of the `flights` table, equivalently one generated mock-flight
tuple (`generate_mock_flights` returns exactly these fourteen fields). -/
structure Flight where
  id : String
  flightNumber : String
  airline : String
  origin : String
  destination : String
  departureDate : Nat
  departureTime : String
  arrivalDate : Nat
  arrivalTime : String
  duration : String
  aircraft : String
  price : ℚ
  seatsAvailable : Int
  flightClass : String
deriving DecidableEq

/-- One row of the `reservations` table. -/
structure Reservation where
  id : Nat
  userId : Int
  flightId : String
  passengerName : String
  flightNumber : String
  seatNumber : String
  bookingDate : String
  status : String
  ticketId : String
  extras : String
deriving DecidableEq

/-- The persistent state: the two mutated tables plus the AUTOINCREMENT
counter feeding `reservations.id`. -/
structure DB where
  flights : List Flight
  reservations : List Reservation
  nextReservationId : Nat
deriving DecidableEq

/-- The fixed airline roster of `mock_flight_data.py` (code, name). -/
def airlines : List (String × String) :=
  [("AI", "Air India"), ("BA", "British Airways"), ("LH", "Lufthansa"),
   ("EK", "Emirates"), ("QR", "Qatar Airways"), ("SQ", "Singapore Airlines")]

/-- The fixed aircraft roster. -/
def aircraft_types : List String :=
  ["Boeing 777-300ER", "Boeing 787-9", "Airbus A380-800",
   "Airbus A350-900", "Boeing 737-800", "Airbus A320neo"]

/-- The six daypart departure hours. -/
def departure_hours : List Nat := [7, 9, 12, 14, 17, 20]

/-- The quarter-hour menu used for departure minutes and duration minutes. -/
def quarter_hours : List Nat := [0, 15, 30, 45]

/-- The body of the generation loop of `generate_mock_flights` for index `i`:
one synthetic flight.  Iteration `i` consumes draws `g (6*i+1) .. g (6*i+6)`
(the batch-size draw is `g 0`). -/
def mkFlight (origin destination : String) (dep_date : Nat)
    (flight_class : String) (g : Nat → Nat) (i : Nat) : Flight :=
  let airline := airlines.getD (i % airlines.length) ("", "")
  let flight_number := airline.1 ++ natRepr (randint (g (6 * i + 1)) 100 999)
  let dep_hour := departure_hours.getD (i % departure_hours.length) 0
  let dep_minute := quarter_hours.getD (g (6 * i + 2) % quarter_hours.length) 0
  let departure_time := fmtHM dep_hour dep_minute
  let duration_hours := randint (g (6 * i + 3)) 1 8
  let duration_minutes := quarter_hours.getD (g (6 * i + 4) % quarter_hours.length) 0
  let duration := natRepr duration_hours ++ "h " ++ natRepr duration_minutes ++ "m"
  let dep_datetime := dep_date * 1440 + dep_hour * 60 + dep_minute
  let arr_datetime := dep_datetime + duration_hours * 60 + duration_minutes
  let arrival_date := arr_datetime / 1440
  let arrival_time := fmtHM (arr_datetime % 1440 / 60) (arr_datetime % 60)
  let aircraft := aircraft_types.getD (i % aircraft_types.length) ""
  let base_price := randint (g (6 * i + 5)) 200 500
  let price : ℚ :=
    if flight_class = "Business" then (base_price : ℚ) * (5 / 2)
    else if flight_class = "First" then (base_price : ℚ) * 4
    else (base_price : ℚ)
  let price := round2 price
  let available_seats := randint (g (6 * i + 6)) 5 50
  let flight_id := "MOCK-" ++ natRepr (i + 1)
  { id := flight_id, flightNumber := flight_number, airline := airline.2,
    origin := origin, destination := destination,
    departureDate := dep_date, departureTime := departure_time,
    arrivalDate := arrival_date, arrivalTime := arrival_time,
    duration := duration, aircraft := aircraft, price := price,
    seatsAvailable := (available_seats : Int), flightClass := flight_class }

/-- Insertion step of insertion sort with a boolean strict comparator. -/
def insertSortedBy (lt : α → α → Bool) (x : α) : List α → List α
  | [] => [x]
  | y :: ys => if lt x y then x :: y :: ys else y :: insertSortedBy lt x ys

/-- Insertion sort; models `list.sort(key=...)` up to tie order (the claims
do not depend on the order of equal keys). -/
def sortListBy (lt : α → α → Bool) : List α → List α
  | [] => []
  | x :: xs => insertSortedBy lt x (sortListBy lt xs)

/-- `generate_mock_flights(origin, destination, departure_date, flight_class)`:
5 or 6 synthetic flights, sorted by the "HH:MM" departure-time string
(`flights.sort(key=lambda x: x[6])`).  `parsed_date` is the `strptime`
result, `now_day` today's date (the fallback). -/
def generate_mock_flights (origin destination : String) (parsed_date : Option Nat)
    (now_day : Nat) (flight_class : String) (g : Nat → Nat) : List Flight :=
  let dep_date := parsed_date.getD now_day
  let num_flights := randint (g 0) 5 6
  let flights := (List.range num_flights).map (mkFlight origin destination dep_date flight_class g)
  sortListBy (fun a b => decide (a.departureTime < b.departureTime)) flights

/-- One `INSERT INTO flights` statement: raises `IntegrityError` (= `none`)
iff the PRIMARY KEY `id` is already taken, else appends the row. -/
def insertFlight (tbl : List Flight) (f : Flight) : Option (List Flight) :=
  if tbl.any (fun row => row.id == f.id) then none else some (tbl ++ [f])

/-- One iteration of the `store_mock_flights` loop: skip the flight when a
row with its `flight_number` already exists, else insert; a failure
poisons the rest of the transaction. -/
def ingestStep (acc : Option (List Flight)) (f : Flight) : Option (List Flight) :=
  match acc with
  | none => none
  | some tbl =>
      if tbl.any (fun row => row.flightNumber == f.flightNumber) then some tbl
      else insertFlight tbl f

/-- `store_mock_flights(flights)`: run the insert-if-absent loop inside one
transaction; commit on success, roll back (leave the database unchanged)
if any insert raised. -/
def store_mock_flights (fs : List Flight) (db : DB) : DB :=
  match fs.foldl ingestStep (some db.flights) with
  | some tbl => { db with flights := tbl }
  | none => db

/-- `search_flights(origin, destination, departure_date, flight_class)`:
default the class to "Economy", default a missing date to today, generate
the mock batch, persist it, and return it (the generator never returns an
empty list, so the warning branch returns `[]` only vacuously).
`departure_date = none` models passing no date; `some p` models passing a
date string whose parse result is `p`. -/
def search_flights (origin destination : String)
    (departure_date : Option (Option Nat)) (flight_class : Option String)
    (now_day : Nat) (g : Nat → Nat) (db : DB) : List Flight × DB :=
  let fc := flight_class.getD "Economy"
  let formatted_date : Option Nat :=
    match departure_date with
    | none => some now_day
    | some p => p
  let flights := generate_mock_flights origin destination formatted_date now_day fc g
  match flights with
  | [] => ([], db)
  | _ => (flights, store_mock_flights flights db)

/-- `book_ticket(passenger_name, flight_id, seat_number, user_id, extras)`.
`selected_flight` is the process-global `st.session_state.selected_flight`
(a full 14-field tuple when present, so the `len(flight) > 1` guard always
holds); `today` is `datetime.now().strftime("%Y-%m-%d")`; `draw` feeds the
`random.randint(10000, 99999)` ticket number.  Returns the `(ok, message)`
pair of the source together with the new database state.  Note that the
function never reads or writes `flights` (no capacity check, no seat
decrement). -/
def book_ticket (passenger_name flight_id seat_number user_id extras : String)
    (selected_flight : Option Flight) (today : String) (draw : Nat)
    (db : DB) : (Bool × String) × DB :=
  if passenger_name = "" ∨ flight_id = "" ∨ seat_number = "" ∨ user_id = "" then
    ((false, "All fields are required"), db)
  else
    match strToInt? user_id with
    | none => ((false, "Invalid user ID format"), db)
    | some uid =>
        let ticket_id := "TKT-" ++ natRepr (randint draw 10000 99999)
        let flight_number :=
          match selected_flight with
          | some flight => flight.airline ++ " " ++ flight.flightNumber
          | none => "FLIGHT-" ++ flight_id
        let booking_date := today
        let row : Reservation :=
          { id := db.nextReservationId, userId := uid, flightId := flight_id,
            passengerName := passenger_name, flightNumber := flight_number,
            seatNumber := seat_number, bookingDate := booking_date,
            status := "Confirmed", ticketId := ticket_id, extras := extras }
        ((true, "Ticket booked successfully! Your ticket ID is " ++ ticket_id),
         { db with reservations := db.reservations ++ [row],
                   nextReservationId := db.nextReservationId + 1 })

/-- `cancel_reservation(reservation_id)`: look the reservation up; if found,
add one seat back to the flight row whose `id` equals its `flight_id` and
flip the reservation status to 'Cancelled' (single commit), else return
`False` and change nothing. -/
def cancel_reservation (reservation_id : Nat) (db : DB) : Bool × DB :=
  match db.reservations.find? (fun r => r.id == reservation_id) with
  | some r =>
      (true,
       { db with
         flights := db.flights.map (fun f =>
           if f.id == r.flightId then
             { f with seatsAvailable := f.seatsAvailable + 1 }
           else f),
         reservations := db.reservations.map (fun q =>
           if q.id == reservation_id then { q with status := "Cancelled" } else q) })
  | none => (false, db)

/-- `cancel_booking(booking_id)`: delete the reservation row outright if it
exists (no seat restoration), else report "Booking not found.". -/
def cancel_booking (booking_id : Nat) (db : DB) : (Bool × String) × DB :=
  if (db.reservations.find? (fun r => r.id == booking_id)).isSome then
    ((true, "Your booking has been successfully cancelled."),
     { db with reservations := db.reservations.filter (fun r => r.id != booking_id) })
  else
    ((false, "Booking not found."), db)

/-- The inner-join row source of `view_reservations`: reservations of the
user paired with the flight row matching their `flight_id`. -/
def reservationJoin (user_id : Int) (db : DB) : List (Reservation × Flight) :=
  (db.reservations.filter (fun r => r.userId == user_id)).flatMap (fun r =>
    (db.flights.filter (fun f => f.id == r.flightId)).map (fun f => (r, f)))

/-- `view_reservations(user_id)`: join reservations with flights, keep the
user's rows, `ORDER BY r.booking_date DESC`.  Runs on the module-level
cursor with no try/except, so a missing `reservations` table (`table_exists
= false`) propagates the sqlite error. -/
def view_reservations (table_exists : Bool) (user_id : Int) (db : DB) :
    Except String (List (Reservation × Flight)) :=
  if table_exists then
    Except.ok (sortListBy
      (fun a b => decide (b.1.bookingDate < a.1.bookingDate))
      (reservationJoin user_id db))
  else
    Except.error "no such table: reservations"

/-- `get_user_bookings(user_id)`: return `[]` when the `reservations` table
does not exist, else every reservation row of the user in table order
(the SELECT has no ORDER BY). -/
def get_user_bookings (table_exists : Bool) (user_id : Int) (db : DB) :
    List Reservation :=
  if table_exists then
    db.reservations.filter (fun r => r.userId == user_id)
  else
    []

/-- The instant a flight departs, in minutes, read off the stored row. -/
def depTimestamp (f : Flight) : Nat :=
  f.departureDate * 1440 + parseHM f.departureTime

/-- The instant a flight arrives, in minutes, read off the stored row. -/
def arrTimestamp (f : Flight) : Nat :=
  f.arrivalDate * 1440 + parseHM f.arrivalTime

/-- The `seats_available` of the flight row keyed `fid`, when present. -/
def seatsOf (fid : String) (db : DB) : Option Int :=
  (db.flights.find? (fun f => f.id == fid)).map (fun f => f.seatsAvailable)

/-- The spec's ticket-identifier pattern `TKT-` followed by five decimal
digits. -/
def matchesTKT (s : String) : Prop :=
  ∃ ds : List Char, s.data = 'T' :: 'K' :: 'T' :: '-' :: ds ∧
    ds.length = 5 ∧ ∀ c ∈ ds, 48 ≤ c.toNat ∧ c.toNat ≤ 57

/-- Concrete flight fixture: a stored offer with zero seats left. -/
def flightZero : Flight :=
  { id := "F1", flightNumber := "AI101", airline := "Air India",
    origin := "DEL", destination := "BOM", departureDate := 0,
    departureTime := "07:00", arrivalDate := 0, arrivalTime := "09:00",
    duration := "2h 0m", aircraft := "Boeing 737-800", price := 300,
    seatsAvailable := 0, flightClass := "Economy" }

/-- Concrete flight fixture: the same offer with five seats left. -/
def flightFive : Flight := { flightZero with seatsAvailable := 5 }

/-- Concrete flight fixture: the same offer with ten seats left. -/
def flightTen : Flight := { flightZero with seatsAvailable := 10 }

/-- Concrete reservation fixture: a Confirmed booking of `flightFive`. -/
def resConfirmed : Reservation :=
  { id := 1, userId := 7, flightId := "F1", passengerName := "Asha Rao",
    flightNumber := "Air India AI101", seatNumber := "A1",
    bookingDate := "2025-06-01", status := "Confirmed",
    ticketId := "TKT-10000", extras := "None" }

/-- Concrete reservation fixture: an earlier booking by the same user. -/
def resEarly : Reservation :=
  { resConfirmed with id := 1, bookingDate := "2025-01-01", ticketId := "TKT-10001" }

/-- Concrete reservation fixture: a later booking by the same user. -/
def resLate : Reservation :=
  { resConfirmed with id := 2, bookingDate := "2025-06-01", ticketId := "TKT-10002" }

/-! ### Helper lemmas: insertion sort -/

theorem insertSortedBy_perm (lt : α → α → Bool) (x : α) (l : List α) :
    (insertSortedBy lt x l).Perm (x :: l) := by
  induction l with
  | nil => simp [insertSortedBy]
  | cons y ys ih =>
    simp only [insertSortedBy]
    by_cases h : lt x y
    · simp [h]
    · simp only [h, if_neg, Bool.false_eq_true, not_false_iff, ite_false]
      exact ((ih.cons y).trans (List.Perm.swap x y ys))

theorem sortListBy_perm (lt : α → α → Bool) (l : List α) :
    (sortListBy lt l).Perm l := by
  induction l with
  | nil => simp [sortListBy]
  | cons x xs ih =>
    exact ((insertSortedBy_perm lt x (sortListBy lt xs)).trans (ih.cons x))

theorem insertSortedBy_pairwise {le : α → α → Prop} (lt : α → α → Bool)
    (h1 : ∀ a b, lt a b = true → le a b) (h2 : ∀ a b, lt a b = false → le b a)
    (htr : ∀ a b c, le a b → le b c → le a c)
    (x : α) (l : List α) (hl : List.Pairwise le l) :
    List.Pairwise le (insertSortedBy lt x l) := by
  induction l with
  | nil => simp [insertSortedBy]
  | cons y ys ih =>
    rcases List.pairwise_cons.mp hl with ⟨hy, hys⟩
    simp only [insertSortedBy]
    by_cases h : lt x y
    · simp only [h, ite_true]
      refine List.pairwise_cons.mpr ⟨?_, hl⟩
      intro z hz
      rcases List.mem_cons.mp hz with rfl | hz
      · exact h1 _ _ h
      · exact htr _ _ _ (h1 _ _ h) (hy z hz)
    · simp only [Bool.not_eq_true] at h
      simp only [h, Bool.false_eq_true, ite_false]
      refine List.pairwise_cons.mpr ⟨?_, ih hys⟩
      intro z hz
      have hmem := (insertSortedBy_perm lt x ys).mem_iff.mp hz
      rcases List.mem_cons.mp hmem with rfl | hz2
      · exact h2 _ _ h
      · exact hy z hz2

theorem sortListBy_pairwise {le : α → α → Prop} (lt : α → α → Bool)
    (h1 : ∀ a b, lt a b = true → le a b) (h2 : ∀ a b, lt a b = false → le b a)
    (htr : ∀ a b c, le a b → le b c → le a c) (l : List α) :
    List.Pairwise le (sortListBy lt l) := by
  induction l with
  | nil => simp [sortListBy]
  | cons x xs ih => exact insertSortedBy_pairwise lt h1 h2 htr x _ ih

/-! ### Helper lemmas: zero-padded time strings -/

theorem digitChar_toNat : ∀ d < 10, (digitChar d).toNat = 48 + d := by decide

theorem digitChar_lt_iff :
    ∀ d < 10, ∀ e < 10, (digitChar d < digitChar e ↔ d < e) := by decide

theorem digitChar_eq_iff :
    ∀ d < 10, ∀ e < 10, (digitChar d = digitChar e ↔ d = e) := by decide

theorem parseHM_fmtHM (h m : Nat) (hh : h < 100) (hm : m < 100) :
    parseHM (fmtHM h m) = 60 * h + m := by
  have h1 := digitChar_toNat (h / 10) (by omega)
  have h2 := digitChar_toNat (h % 10) (by omega)
  have h3 := digitChar_toNat (m / 10) (by omega)
  have h4 := digitChar_toNat (m % 10) (by omega)
  simp only [parseHM, fmtHM, twoDigit, String.mk, List.cons_append, List.nil_append]
  rw [h1, h2, h3, h4]
  omega

theorem lex_cons_iff {r : α → α → Prop} {a b : α} {l1 l2 : List α} :
    List.Lex r (a :: l1) (b :: l2) ↔ r a b ∨ (a = b ∧ List.Lex r l1 l2) := by
  constructor
  · intro h
    cases h with
    | rel h => exact Or.inl h
    | cons h => exact Or.inr ⟨rfl, h⟩
  · rintro (h | ⟨rfl, h⟩)
    · exact List.Lex.rel h
    · exact List.Lex.cons h

theorem fmtHM_lt_iff (h1 m1 h2 m2 : Nat)
    (hh1 : h1 < 100) (hm1 : m1 < 60) (hh2 : h2 < 100) (hm2 : m2 < 60) :
    (fmtHM h1 m1 < fmtHM h2 m2 ↔ 60 * h1 + m1 < 60 * h2 + m2) := by
  rw [String.lt_iff_toList_lt]
  have htl : ∀ a b : Nat, (fmtHM a b).toList =
      [digitChar (a / 10), digitChar (a % 10), ':',
       digitChar (b / 10), digitChar (b % 10)] := by
    intro a b; rfl
  rw [htl, htl]
  show List.Lex (· < ·) _ _ ↔ _
  have e1 := digitChar_lt_iff (h1 / 10) (by omega) (h2 / 10) (by omega)
  have e2 := digitChar_eq_iff (h1 / 10) (by omega) (h2 / 10) (by omega)
  have e3 := digitChar_lt_iff (h1 % 10) (by omega) (h2 % 10) (by omega)
  have e4 := digitChar_eq_iff (h1 % 10) (by omega) (h2 % 10) (by omega)
  have e5 := digitChar_lt_iff (m1 / 10) (by omega) (m2 / 10) (by omega)
  have e6 := digitChar_eq_iff (m1 / 10) (by omega) (m2 / 10) (by omega)
  have e7 := digitChar_lt_iff (m1 % 10) (by omega) (m2 % 10) (by omega)
  have e8 := digitChar_eq_iff (m1 % 10) (by omega) (m2 % 10) (by omega)
  simp only [lex_cons_iff, List.Lex.not_nil_right, e1, e2, e3, e4, e5, e6, e7, e8,
    lt_self_iff_false, false_or, true_and, or_false, and_false, false_and]
  omega

theorem fmtHM_le_iff (h1 m1 h2 m2 : Nat)
    (hh1 : h1 < 100) (hm1 : m1 < 60) (hh2 : h2 < 100) (hm2 : m2 < 60) :
    (fmtHM h1 m1 ≤ fmtHM h2 m2 ↔ 60 * h1 + m1 ≤ 60 * h2 + m2) := by
  rw [← not_lt, ← not_lt, fmtHM_lt_iff h2 m2 h1 m1 hh2 hm2 hh1 hm1]

/-! ### Helper lemmas: exact rounding -/

theorem round2_eq_self (q : ℚ) (z : ℤ) (h : q * 100 = (z : ℚ)) : round2 q = q := by
  unfold round2
  rw [h, round_intCast, ← h]
  ring

theorem round2_natCast (b : Nat) : round2 ((b : ℚ)) = (b : ℚ) := by
  refine round2_eq_self _ (100 * b) ?_
  push_cast
  ring

theorem round2_half (b : Nat) : round2 ((b : ℚ) * (5 / 2)) = (b : ℚ) * (5 / 2) := by
  refine round2_eq_self _ (250 * b) ?_
  push_cast
  ring

theorem round2_four (b : Nat) : round2 ((b : ℚ) * 4) = (b : ℚ) * 4 := by
  refine round2_eq_self _ (400 * b) ?_
  push_cast
  ring

/-! ### Helper lemmas: ticket-identifier shape -/

theorem natRepr_data (n : Nat) (h : n ≠ 0) :
    (natRepr n).data = (Nat.digits 10 n).reverse.map digitChar := by
  simp [natRepr, h, String.mk]

theorem ticket_matchesTKT (n : Nat) (h1 : 10000 ≤ n) (h2 : n ≤ 99999) :
    matchesTKT ("TKT-" ++ natRepr n) := by
  refine ⟨(Nat.digits 10 n).reverse.map digitChar, ?_, ?_, ?_⟩
  · rw [String.data_append, natRepr_data n (by omega)]
    rfl
  · rw [List.length_map, List.length_reverse,
      Nat.digits_len 10 n (by norm_num) (by omega)]
    have : Nat.log 10 n = 4 :=
      Nat.log_eq_of_pow_le_of_lt_pow (by norm_num; omega) (by norm_num; omega)
    omega
  · intro c hc
    rcases List.mem_map.mp hc with ⟨d, hd, rfl⟩
    have hdlt : d < 10 := Nat.digits_lt_base (by norm_num) (List.mem_reverse.mp hd)
    have := digitChar_toNat d hdlt
    omega

/-! ### Helper lemmas: the ingest transaction -/

theorem ingest_foldl_none (fs : List Flight) :
    List.foldl ingestStep none fs = none := by
  induction fs with
  | nil => rfl
  | cons f fs ih => simpa [ingestStep] using ih

theorem ingest_prefix (fs : List Flight) (t0 t1 : List Flight)
    (h : List.foldl ingestStep (some t0) fs = some t1) :
    ∃ ext, t1 = t0 ++ ext := by
  induction fs generalizing t0 with
  | nil => exact ⟨[], by simpa using h.symm⟩
  | cons f fs ih =>
    rw [List.foldl_cons] at h
    by_cases hskip : t0.any (fun row => row.flightNumber == f.flightNumber)
    · rw [show ingestStep (some t0) f = some t0 by simp [ingestStep, hskip]] at h
      exact ih t0 h
    · by_cases hid : t0.any (fun row => row.id == f.id)
      · rw [show ingestStep (some t0) f = none by
          simp [ingestStep, hskip, insertFlight, hid]] at h
        rw [ingest_foldl_none] at h
        exact absurd h (by simp)
      · rw [show ingestStep (some t0) f = some (t0 ++ [f]) by
          simp [ingestStep, hskip, insertFlight, hid]] at h
        rcases ih (t0 ++ [f]) h with ⟨ext, hext⟩
        exact ⟨f :: ext, by simpa using hext⟩

theorem ingest_covers (fs : List Flight) (t0 t1 : List Flight)
    (h : List.foldl ingestStep (some t0) fs = some t1) :
    ∀ f ∈ fs, ∃ row ∈ t1, row.flightNumber = f.flightNumber := by
  induction fs generalizing t0 with
  | nil => simp
  | cons f fs ih =>
    rw [List.foldl_cons] at h
    intro f2 hf2
    by_cases hskip : t0.any (fun row => row.flightNumber == f.flightNumber)
    · rw [show ingestStep (some t0) f = some t0 by simp [ingestStep, hskip]] at h
      rcases List.mem_cons.mp hf2 with rfl | hmem
      · rcases List.any_eq_true.mp hskip with ⟨row, hrow, hbeq⟩
        rcases ingest_prefix fs t0 t1 h with ⟨ext, rfl⟩
        exact ⟨row, List.mem_append_left _ hrow, by simpa using hbeq⟩
      · exact ih t0 h f2 hmem
    · by_cases hid : t0.any (fun row => row.id == f.id)
      · rw [show ingestStep (some t0) f = none by
          simp [ingestStep, hskip, insertFlight, hid]] at h
        rw [ingest_foldl_none] at h
        exact absurd h (by simp)
      · rw [show ingestStep (some t0) f = some (t0 ++ [f]) by
          simp [ingestStep, hskip, insertFlight, hid]] at h
        rcases List.mem_cons.mp hf2 with rfl | hmem
        · rcases ingest_prefix fs (t0 ++ [f2]) t1 h with ⟨ext, rfl⟩
          exact ⟨f2, by simp, rfl⟩
        · exact ih (t0 ++ [f]) h f2 hmem

theorem ingest_skips_all (fs : List Flight) (t : List Flight)
    (hcov : ∀ f ∈ fs, ∃ row ∈ t, row.flightNumber = f.flightNumber) :
    List.foldl ingestStep (some t) fs = some t := by
  induction fs with
  | nil => rfl
  | cons f fs ih =>
    rw [List.foldl_cons]
    have hany : t.any (fun row => row.flightNumber == f.flightNumber) = true := by
      rcases hcov f (by simp) with ⟨row, hrow, heq⟩
      exact List.any_eq_true.mpr ⟨row, hrow, by simpa using heq⟩
    rw [show ingestStep (some t) f = some t by simp [ingestStep, hany]]
    exact ih (fun f2 hf2 => hcov f2 (List.mem_cons_of_mem _ hf2))

theorem store_mock_flights_idem (fs : List Flight) (db : DB) :
    store_mock_flights fs (store_mock_flights fs db) = store_mock_flights fs db := by
  unfold store_mock_flights
  cases h : List.foldl ingestStep (some db.flights) fs with
  | none => simp [h]
  | some tbl =>
    simp only [h]
    have hcov := ingest_covers fs db.flights tbl h
    have : List.foldl ingestStep (some tbl) fs = some tbl :=
      ingest_skips_all fs tbl hcov
    simp [this]

/-! ### Helper lemmas: UPDATE ... WHERE on the list model -/

theorem find?_map_seatsUpd (l : List Flight) (fid0 fid : String) :
    (l.map (fun f => if f.id == fid0 then
        { f with seatsAvailable := f.seatsAvailable + 1 } else f)).find?
      (fun f => f.id == fid)
    = (l.find? (fun f => f.id == fid)).map (fun f => if f.id == fid0 then
        { f with seatsAvailable := f.seatsAvailable + 1 } else f) := by
  rw [List.find?_map]
  have hcomp : ((fun f : Flight => f.id == fid) ∘ (fun f => if f.id == fid0 then
      { f with seatsAvailable := f.seatsAvailable + 1 } else f))
      = (fun f : Flight => f.id == fid) := by
    funext f
    by_cases h : f.id == fid0 <;> simp [Function.comp, h]
  rw [hcomp]

theorem find?_map_statusUpd (l : List Reservation) (rid : Nat) (q : Reservation)
    (h : l.find? (fun r => r.id == rid) = some q) :
    (l.map (fun r => if r.id == rid then { r with status := "Cancelled" } else r)).find?
      (fun r => r.id == rid) = some { q with status := "Cancelled" } := by
  rw [List.find?_map]
  have hcomp : ((fun r : Reservation => r.id == rid) ∘
      (fun r => if r.id == rid then { r with status := "Cancelled" } else r))
      = (fun r : Reservation => r.id == rid) := by
    funext r
    by_cases hr : r.id == rid <;> simp [Function.comp, hr]
  rw [hcomp, h]
  have hq : q.id = rid := by
    have := List.find?_some h
    simpa using this
  simp [hq]

theorem seatsOf_cancel_upd (db : DB) (rid : Nat) (q : Reservation)
    (h : db.reservations.find? (fun r => r.id == rid) = some q) :
    seatsOf q.flightId (cancel_reservation rid db).2
      = (seatsOf q.flightId db).map (fun s => s + 1) := by
  simp only [cancel_reservation, h, seatsOf]
  rw [find?_map_seatsUpd]
  cases hf : db.flights.find? (fun f => f.id == q.flightId) with
  | none => simp
  | some f0 =>
    have heq : f0.id = q.flightId := by
      have := List.find?_some hf
      simpa using this
    simp [heq]

theorem seatsOf_cancel_other (db : DB) (rid : Nat) (q : Reservation) (fid : String)
    (h : db.reservations.find? (fun r => r.id == rid) = some q)
    (hne : fid ≠ q.flightId) :
    seatsOf fid (cancel_reservation rid db).2 = seatsOf fid db := by
  simp only [cancel_reservation, h, seatsOf]
  rw [find?_map_seatsUpd]
  cases hf : db.flights.find? (fun f => f.id == fid) with
  | none => simp
  | some f0 =>
    have hid : f0.id = fid := by
      have := List.find?_some hf
      simpa using this
    simp [hid, hne]

theorem cancel_reservation_fst_true (db : DB) (rid : Nat) (q : Reservation)
    (h : db.reservations.find? (fun r => r.id == rid) = some q) :
    (cancel_reservation rid db).1 = true := by
  simp [cancel_reservation, h]

/-! ### Helper lemmas: shape of generated flights -/

theorem getD_lt_of_forall {b d : Nat} (l : List Nat) (n : Nat)
    (hall : ∀ x ∈ l, x < b) (hd : d < b) : l.getD n d < b := by
  induction l generalizing n with
  | nil => simpa using hd
  | cons x xs ih =>
    cases n with
    | zero => exact hall x (by simp)
    | succ n =>
      simpa using ih n (fun y hy => hall y (List.mem_cons_of_mem _ hy))

theorem mkFlight_origin (o dst : String) (dd : Nat) (fc : String)
    (g : Nat → Nat) (i : Nat) : (mkFlight o dst dd fc g i).origin = o := rfl

theorem mkFlight_destination (o dst : String) (dd : Nat) (fc : String)
    (g : Nat → Nat) (i : Nat) : (mkFlight o dst dd fc g i).destination = dst := rfl

theorem mkFlight_flightClass (o dst : String) (dd : Nat) (fc : String)
    (g : Nat → Nat) (i : Nat) : (mkFlight o dst dd fc g i).flightClass = fc := rfl

theorem mkFlight_departureTime (o dst : String) (dd : Nat) (fc : String)
    (g : Nat → Nat) (i : Nat) :
    (mkFlight o dst dd fc g i).departureTime =
      fmtHM (departure_hours.getD (i % departure_hours.length) 0)
        (quarter_hours.getD (g (6 * i + 2) % quarter_hours.length) 0) := rfl

theorem dep_hour_lt (i : Nat) :
    departure_hours.getD (i % departure_hours.length) 0 < 24 :=
  getD_lt_of_forall _ _ (by decide) (by norm_num)

theorem quarter_lt (n : Nat) :
    quarter_hours.getD (n % quarter_hours.length) 0 < 60 :=
  getD_lt_of_forall _ _ (by decide) (by norm_num)

theorem mkFlight_dep_lt_arr (o dst : String) (dd : Nat) (fc : String)
    (g : Nat → Nat) (i : Nat) :
    depTimestamp (mkFlight o dst dd fc g i) < arrTimestamp (mkFlight o dst dd fc g i) := by
  have hh := dep_hour_lt i
  have hm := quarter_lt (g (6 * i + 2))
  have hdm := quarter_lt (g (6 * i + 4))
  simp only [depTimestamp, arrTimestamp, mkFlight]
  rw [parseHM_fmtHM _ _ (by omega) (by omega)]
  rw [parseHM_fmtHM _ _ (by omega) (by omega)]
  have hdh : 1 ≤ randint (g (6 * i + 3)) 1 8 := Nat.le_add_right 1 _
  omega

theorem mkFlight_time_shape (o dst : String) (dd : Nat) (fc : String)
    (g : Nat → Nat) (i : Nat) :
    ∃ h m, h < 24 ∧ m < 60 ∧ (mkFlight o dst dd fc g i).departureTime = fmtHM h m :=
  ⟨_, _, dep_hour_lt i, quarter_lt (g (6 * i + 2)), mkFlight_departureTime o dst dd fc g i⟩

theorem generate_mock_flights_eq (o dst : String) (p : Option Nat) (now_day : Nat)
    (fc : String) (g : Nat → Nat) :
    generate_mock_flights o dst p now_day fc g =
      sortListBy (fun a b => decide (a.departureTime < b.departureTime))
        ((List.range (5 + g 0 % 2)).map (mkFlight o dst (p.getD now_day) fc g)) := rfl

theorem generate_mock_flights_length (o dst : String) (p : Option Nat) (now_day : Nat)
    (fc : String) (g : Nat → Nat) :
    (generate_mock_flights o dst p now_day fc g).length = 5 + g 0 % 2 := by
  rw [generate_mock_flights_eq, (sortListBy_perm _ _).length_eq,
    List.length_map, List.length_range]

theorem generate_mock_flights_mem (o dst : String) (p : Option Nat) (now_day : Nat)
    (fc : String) (g : Nat → Nat) (f : Flight) :
    f ∈ generate_mock_flights o dst p now_day fc g ↔
      ∃ i < 5 + g 0 % 2, f = mkFlight o dst (p.getD now_day) fc g i := by
  rw [generate_mock_flights_eq, (sortListBy_perm _ _).mem_iff]
  simp only [List.mem_map, List.mem_range]
  constructor
  · rintro ⟨i, hi, rfl⟩
    exact ⟨i, hi, rfl⟩
  · rintro ⟨i, hi, rfl⟩
    exact ⟨i, hi, rfl⟩

theorem search_flights_eq (o dst : String) (p : Option Nat) (fc : String)
    (now_day : Nat) (g : Nat → Nat) (db : DB) :
    search_flights o dst (some p) (some fc) now_day g db =
      (generate_mock_flights o dst p now_day fc g,
       store_mock_flights (generate_mock_flights o dst p now_day fc g) db) := by
  have hlen := generate_mock_flights_length o dst p now_day fc g
  unfold search_flights
  simp only [Option.getD_some]
  cases hg : generate_mock_flights o dst p now_day fc g with
  | nil => rw [hg] at hlen; simp at hlen; omega
  | cons a l => simp [← hg]

/-! ### Claim C5 -/

/-- C5: for every valid request `(origin, destination, date, class)` with
`origin ≠ destination` (date parsed to day `d`), `search_flights` returns
between 5 and 6 offers, and every returned offer has the requested origin,
destination and class, and an arrival timestamp strictly greater than its
departure timestamp. -/
theorem search_flights_valid_request (o dst : String) (d now_day : Nat)
    (fc : String) (g : Nat → Nat) (db : DB) (hod : o ≠ dst) :
    5 ≤ (search_flights o dst (some (some d)) (some fc) now_day g db).1.length ∧
    (search_flights o dst (some (some d)) (some fc) now_day g db).1.length ≤ 6 ∧
    ∀ f ∈ (search_flights o dst (some (some d)) (some fc) now_day g db).1,
      f.origin = o ∧ f.destination = dst ∧ f.flightClass = fc ∧
      depTimestamp f < arrTimestamp f := by
  rw [search_flights_eq]
  refine ⟨?_, ?_, ?_⟩
  · rw [generate_mock_flights_length]
    omega
  · rw [generate_mock_flights_length]
    omega
  · intro f hf
    rcases (generate_mock_flights_mem o dst (some d) now_day fc g f).mp hf
      with ⟨i, hi, rfl⟩
    exact ⟨mkFlight_origin o dst _ fc g i, mkFlight_destination o dst _ fc g i,
      mkFlight_flightClass o dst _ fc g i, mkFlight_dep_lt_arr o dst _ fc g i⟩

/-- Witness for C5 at a concrete request. -/
theorem search_flights_valid_request_witness :
    ("DEL" : String) ≠ "BOM" ∧
    (5 ≤ (search_flights "DEL" "BOM" (some (some 20240)) (some "Economy") 20000
        (fun _ => 0) ⟨[], [], 1⟩).1.length ∧
     (search_flights "DEL" "BOM" (some (some 20240)) (some "Economy") 20000
        (fun _ => 0) ⟨[], [], 1⟩).1.length ≤ 6 ∧
     ∀ f ∈ (search_flights "DEL" "BOM" (some (some 20240)) (some "Economy") 20000
        (fun _ => 0) ⟨[], [], 1⟩).1,
       f.origin = "DEL" ∧ f.destination = "BOM" ∧ f.flightClass = "Economy" ∧
       depTimestamp f < arrTimestamp f) :=
  ⟨by decide,
   search_flights_valid_request "DEL" "BOM" 20240 20000 "Economy"
     (fun _ => 0) ⟨[], [], 1⟩ (by decide)⟩

/-! ### Claim C6 -/

/-- C6: every generated batch comes out of `generate_mock_flights` sorted
non-decreasing by departure time — both as the raw lexicographic order on
the stored "HH:MM" strings and chronologically — and on zero-padded
"HH:MM" strings the lexicographic order agrees with chronological order. -/
theorem generate_mock_flights_sorted (o dst : String) (p : Option Nat)
    (now_day : Nat) (fc : String) (g : Nat → Nat) :
    List.Pairwise (fun a b : Flight => a.departureTime ≤ b.departureTime)
      (generate_mock_flights o dst p now_day fc g) ∧
    List.Pairwise (fun a b : Flight => parseHM a.departureTime ≤ parseHM b.departureTime)
      (generate_mock_flights o dst p now_day fc g) ∧
    ∀ h1 < 24, ∀ m1 < 60, ∀ h2 < 24, ∀ m2 < 60,
      (fmtHM h1 m1 < fmtHM h2 m2 ↔ 60 * h1 + m1 < 60 * h2 + m2) := by
  have hsorted : List.Pairwise (fun a b : Flight => a.departureTime ≤ b.departureTime)
      (generate_mock_flights o dst p now_day fc g) := by
    rw [generate_mock_flights_eq]
    refine sortListBy_pairwise _ ?_ ?_ ?_ _
    · intro a b h
      exact le_of_lt (of_decide_eq_true h)
    · intro a b h
      exact not_lt.mp (of_decide_eq_false h)
    · intro a b c hab hbc
      exact le_trans hab hbc
  refine ⟨hsorted, ?_, ?_⟩
  · refine hsorted.imp_of_mem ?_
    intro a b ha hb hle
    rcases (generate_mock_flights_mem o dst p now_day fc g a).mp ha with ⟨i, hi, rfl⟩
    rcases (generate_mock_flights_mem o dst p now_day fc g b).mp hb with ⟨j, hj, rfl⟩
    rcases mkFlight_time_shape o dst _ fc g i with ⟨h1, m1, hh1, hm1, heq1⟩
    rcases mkFlight_time_shape o dst _ fc g j with ⟨h2, m2, hh2, hm2, heq2⟩
    rw [heq1, heq2] at hle ⊢
    rw [parseHM_fmtHM h1 m1 (by omega) (by omega),
      parseHM_fmtHM h2 m2 (by omega) (by omega)]
    exact (fmtHM_le_iff h1 m1 h2 m2 (by omega) hm1 (by omega) hm2).mp hle
  · intro h1 hh1 m1 hm1 h2 hh2 m2 hm2
    exact fmtHM_lt_iff h1 m1 h2 m2 (by omega) hm1 (by omega) hm2

/-! ### Claim C7 -/

/-- C7: the generated price is the base fare (drawn from `[200, 500]`)
times the class multiplier (Economy x1, Business x2.5, First x4), and the
rounding to two decimals is exact, so for equal base-fare draws
`priceBusiness = 2.5 * priceEconomy` and `priceFirst = 4 * priceEconomy`
hold exactly, and the price of any class is never negative. -/
theorem mkFlight_price_spec (o dst : String) (dd : Nat) (g : Nat → Nat)
    (i : Nat) (c : String) :
    200 ≤ randint (g (6 * i + 5)) 200 500 ∧
    randint (g (6 * i + 5)) 200 500 ≤ 500 ∧
    (mkFlight o dst dd "Economy" g i).price = (randint (g (6 * i + 5)) 200 500 : ℚ) ∧
    (mkFlight o dst dd "Business" g i).price
      = (5 / 2) * (mkFlight o dst dd "Economy" g i).price ∧
    (mkFlight o dst dd "First" g i).price
      = 4 * (mkFlight o dst dd "Economy" g i).price ∧
    0 ≤ (mkFlight o dst dd c g i).price := by
  have hbase : randint (g (6 * i + 5)) 200 500 = 200 + g (6 * i + 5) % 301 := rfl
  have he : (mkFlight o dst dd "Economy" g i).price
      = round2 ((randint (g (6 * i + 5)) 200 500 : ℚ)) := by
    simp only [mkFlight]
    rw [if_neg (by decide), if_neg (by decide)]
  have hb : (mkFlight o dst dd "Business" g i).price
      = round2 ((randint (g (6 * i + 5)) 200 500 : ℚ) * (5 / 2)) := by
    simp only [mkFlight]
    simp
  have hf : (mkFlight o dst dd "First" g i).price
      = round2 ((randint (g (6 * i + 5)) 200 500 : ℚ) * 4) := by
    simp only [mkFlight]
    rw [if_neg (by decide)]
    simp
  refine ⟨by omega, by omega, ?_, ?_, ?_, ?_⟩
  · rw [he, round2_natCast]
  · rw [hb, he, round2_natCast, round2_half]
    ring
  · rw [hf, he, round2_natCast, round2_four]
    ring
  · by_cases hc1 : c = "Business"
    · subst hc1
      rw [hb, round2_half]
      positivity
    · by_cases hc2 : c = "First"
      · subst hc2
        rw [hf, round2_four]
        positivity
      · have : (mkFlight o dst dd c g i).price
            = round2 ((randint (g (6 * i + 5)) 200 500 : ℚ)) := by
          simp only [mkFlight]
          rw [if_neg hc1, if_neg hc2]
        rw [this, round2_natCast]
        positivity

/-! ### Claim C1 -/

/-- C1 (code bug in the source): `book_ticket` performs no capacity check
and no seat decrement.  On a database whose only flight has
`seatsAvailable = 0`, booking that flight succeeds, appends a reservation,
and leaves the flights table — hence the zero seat count — unchanged,
where the claim requires a capacity failure with no reservation, and a
decrement by one on success. -/
theorem book_ticket_ignores_capacity :
    ((book_ticket "Asha Rao" "F1" "A1" "7" "None" none "2025-06-01" 0
        ⟨[flightZero], [], 1⟩).1.1 = true) ∧
    ((book_ticket "Asha Rao" "F1" "A1" "7" "None" none "2025-06-01" 0
        ⟨[flightZero], [], 1⟩).2.flights = [flightZero]) ∧
    ((book_ticket "Asha Rao" "F1" "A1" "7" "None" none "2025-06-01" 0
        ⟨[flightZero], [], 1⟩).2.reservations.length = 1) ∧
    (seatsOf "F1" (book_ticket "Asha Rao" "F1" "A1" "7" "None" none "2025-06-01" 0
        ⟨[flightZero], [], 1⟩).2 = some 0) :=
  ⟨rfl, rfl, rfl, rfl⟩

/-! ### Claim C3 -/

/-- C3: `store_mock_flights` inserts an offer iff no stored row shares its
`flight_number` (and its fresh primary key does not collide), otherwise
skips it without updating or erroring; re-running the whole batch is a
no-op (idempotence on flight number), and a batch whose transaction fails
is rolled back in full, so none of its inserts are retained. -/
theorem store_mock_flights_spec (f : Flight) (fs : List Flight) (db : DB) :
    ((∃ row ∈ db.flights, row.flightNumber = f.flightNumber) →
      store_mock_flights [f] db = db) ∧
    ((¬ ∃ row ∈ db.flights, row.flightNumber = f.flightNumber) →
     (¬ ∃ row ∈ db.flights, row.id = f.id) →
      (store_mock_flights [f] db).flights = db.flights ++ [f]) ∧
    store_mock_flights fs (store_mock_flights fs db) = store_mock_flights fs db ∧
    (List.foldl ingestStep (some db.flights) fs = none →
      store_mock_flights fs db = db) := by
  refine ⟨?_, ?_, store_mock_flights_idem fs db, ?_⟩
  · rintro ⟨row, hrow, heq⟩
    have hany : db.flights.any (fun row => row.flightNumber == f.flightNumber) = true :=
      List.any_eq_true.mpr ⟨row, hrow, by simpa using heq⟩
    have hfold : List.foldl ingestStep (some db.flights) [f] = some db.flights := by
      simp [ingestStep, hany]
    simp [store_mock_flights, hfold]
  · intro h1 h2
    have hany1 : db.flights.any (fun row => row.flightNumber == f.flightNumber) = false := by
      rw [← Bool.not_eq_true, List.any_eq_true]
      simpa using h1
    have hany2 : db.flights.any (fun row => row.id == f.id) = false := by
      rw [← Bool.not_eq_true, List.any_eq_true]
      simpa using h2
    have hfold : List.foldl ingestStep (some db.flights) [f]
        = some (db.flights ++ [f]) := by
      simp [ingestStep, hany1, insertFlight, hany2]
    simp [store_mock_flights, hfold]
  · intro h
    simp [store_mock_flights, h]

/-- Witness for C3: a duplicate flight number is skipped (here: re-ingesting
a stored offer changes nothing). -/
theorem store_mock_flights_spec_witness :
    (∃ row ∈ (⟨[flightFive], [], 1⟩ : DB).flights,
      row.flightNumber = flightFive.flightNumber) ∧
    store_mock_flights [flightFive] ⟨[flightFive], [], 1⟩ = ⟨[flightFive], [], 1⟩ :=
  ⟨⟨flightFive, by simp, rfl⟩,
   (store_mock_flights_spec flightFive [] ⟨[flightFive], [], 1⟩).1
     ⟨flightFive, by simp, rfl⟩⟩

/-! ### Claim C2 -/

/-- C2 counterexample: `cancel_booking` on an existing Confirmed reservation
succeeds and removes the reservation but leaves the referenced flight's
`seats_available` unchanged (5, not 5 + 1), refuting the claim that cancel
increases it by exactly one. -/
theorem cancel_booking_no_seat_restore :
    ((cancel_booking 1 ⟨[flightFive], [resConfirmed], 2⟩).1.1 = true) ∧
    ((cancel_booking 1 ⟨[flightFive], [resConfirmed], 2⟩).2.reservations = []) ∧
    (resConfirmed.flightId = "F1") ∧
    (resConfirmed.status = "Confirmed") ∧
    (seatsOf "F1" ⟨[flightFive], [resConfirmed], 2⟩ = some 5) ∧
    (seatsOf "F1" (cancel_booking 1 ⟨[flightFive], [resConfirmed], 2⟩).2 = some 5) ∧
    ((5 : Int) ≠ 5 + 1) :=
  ⟨rfl, rfl, rfl, rfl, rfl, rfl, by decide⟩

/-- C2 (amended): on an unknown id both cancel variants fail and change
nothing; on an existing reservation `cancel_reservation` adds exactly one
seat to the referenced flight row, leaves every other flight untouched and
marks the reservation Cancelled, all in one state transition, whereas
`cancel_booking` deletes the reservation row and restores no seat. -/
theorem cancel_contract (db : DB) (rid : Nat) :
    (db.reservations.find? (fun r => r.id == rid) = none →
      cancel_reservation rid db = (false, db) ∧
      cancel_booking rid db = ((false, "Booking not found."), db)) ∧
    (∀ q, db.reservations.find? (fun r => r.id == rid) = some q →
      (cancel_reservation rid db).1 = true ∧
      seatsOf q.flightId (cancel_reservation rid db).2
        = (seatsOf q.flightId db).map (fun s => s + 1) ∧
      (∀ fid, fid ≠ q.flightId →
        seatsOf fid (cancel_reservation rid db).2 = seatsOf fid db) ∧
      ((cancel_reservation rid db).2.reservations.find? (fun r => r.id == rid)
        = some { q with status := "Cancelled" }) ∧
      (cancel_booking rid db).1.1 = true ∧
      (cancel_booking rid db).2.flights = db.flights ∧
      (cancel_booking rid db).2.reservations
        = db.reservations.filter (fun r => r.id != rid)) := by
  constructor
  · intro h
    refine ⟨by simp [cancel_reservation, h], ?_⟩
    simp [cancel_booking, h]
  · intro q h
    refine ⟨by simp [cancel_reservation, h], seatsOf_cancel_upd db rid q h,
      fun fid hne => seatsOf_cancel_other db rid q fid h hne, ?_, ?_, ?_, ?_⟩
    · simp only [cancel_reservation, h]
      exact find?_map_statusUpd db.reservations rid q h
    · simp [cancel_booking, h]
    · simp [cancel_booking, h]
    · simp [cancel_booking, h]

/-- Witness for C2 at a concrete database: cancelling the stored Confirmed
reservation via `cancel_reservation` restores one seat and flips the
status. -/
theorem cancel_contract_witness :
    ((⟨[flightFive], [resConfirmed], 2⟩ : DB).reservations.find?
      (fun r => r.id == 1) = some resConfirmed) ∧
    ((cancel_reservation 1 ⟨[flightFive], [resConfirmed], 2⟩).1 = true ∧
     seatsOf resConfirmed.flightId
        (cancel_reservation 1 ⟨[flightFive], [resConfirmed], 2⟩).2
       = (seatsOf resConfirmed.flightId ⟨[flightFive], [resConfirmed], 2⟩).map
           (fun s => s + 1) ∧
     (∀ fid, fid ≠ resConfirmed.flightId →
       seatsOf fid (cancel_reservation 1 ⟨[flightFive], [resConfirmed], 2⟩).2
         = seatsOf fid ⟨[flightFive], [resConfirmed], 2⟩) ∧
     ((cancel_reservation 1 ⟨[flightFive], [resConfirmed], 2⟩).2.reservations.find?
        (fun r => r.id == 1) = some { resConfirmed with status := "Cancelled" }) ∧
     (cancel_booking 1 ⟨[flightFive], [resConfirmed], 2⟩).1.1 = true ∧
     (cancel_booking 1 ⟨[flightFive], [resConfirmed], 2⟩).2.flights
       = (⟨[flightFive], [resConfirmed], 2⟩ : DB).flights ∧
     (cancel_booking 1 ⟨[flightFive], [resConfirmed], 2⟩).2.reservations
       = (⟨[flightFive], [resConfirmed], 2⟩ : DB).reservations.filter
           (fun r => r.id != 1)) :=
  ⟨rfl, (cancel_contract ⟨[flightFive], [resConfirmed], 2⟩ 1).2 resConfirmed rfl⟩

/-! ### Claim C4 -/

/-- C4 counterexample: after a successful `cancel_reservation`, a second
call on the same id succeeds again and increments the flight's seat count
a second time (10 to 11 to 12) — neither a NotFound failure nor a no-op,
refuting the claimed fail-or-no-op behaviour of a repeated cancel. -/
theorem cancel_reservation_double_increment :
    ((cancel_reservation 1 ⟨[flightTen], [resConfirmed], 2⟩).1 = true) ∧
    (seatsOf "F1" (cancel_reservation 1 ⟨[flightTen], [resConfirmed], 2⟩).2
      = some 11) ∧
    ((cancel_reservation 1
        (cancel_reservation 1 ⟨[flightTen], [resConfirmed], 2⟩).2).1 = true) ∧
    (seatsOf "F1" (cancel_reservation 1
        (cancel_reservation 1 ⟨[flightTen], [resConfirmed], 2⟩).2).2 = some 12) ∧
    ((12 : Int) ≠ 11) :=
  ⟨rfl, rfl, rfl, rfl, by decide⟩

/-- C4 (amended): the second-cancel behaviour differs per variant: a second
`cancel_booking` on the same id always fails with "Booking not found." and
changes nothing further, while after a successful `cancel_reservation` a
second call succeeds again and leaves the referenced flight with two extra
seats, so only the delete variant has the claimed fail-or-no-op behaviour. -/
theorem cancel_twice_contract (db : DB) (rid : Nat) :
    (cancel_booking rid (cancel_booking rid db).2
      = ((false, "Booking not found."), (cancel_booking rid db).2)) ∧
    (∀ q, db.reservations.find? (fun r => r.id == rid) = some q →
      (cancel_reservation rid (cancel_reservation rid db).2).1 = true ∧
      seatsOf q.flightId (cancel_reservation rid (cancel_reservation rid db).2).2
        = (seatsOf q.flightId db).map (fun s => s + 2)) := by
  constructor
  · cases h : db.reservations.find? (fun r => r.id == rid) with
    | none => simp [cancel_booking, h]
    | some q =>
      have hdel : ((cancel_booking rid db).2.reservations.find?
          (fun r => r.id == rid)) = none := by
        simp only [cancel_booking, h, Option.isSome_some, if_true]
        rw [List.find?_eq_none]
        intro x hx
        have := (List.mem_filter.mp hx).2
        simp only [bne_iff_ne, ne_eq] at this
        simp [this]
      simp only [cancel_booking, hdel]
      simp [cancel_booking, h]
  · intro q h
    have h2 : ((cancel_reservation rid db).2.reservations.find?
        (fun r => r.id == rid)) = some { q with status := "Cancelled" } := by
      simp only [cancel_reservation, h]
      exact find?_map_statusUpd db.reservations rid q h
    refine ⟨cancel_reservation_fst_true _ rid _ h2, ?_⟩
    have e2 := seatsOf_cancel_upd (cancel_reservation rid db).2 rid
      { q with status := "Cancelled" } h2
    have e1 := seatsOf_cancel_upd db rid q h
    rw [show ({ q with status := "Cancelled" } : Reservation).flightId
      = q.flightId from rfl] at e2
    rw [e2, e1, Option.map_map]
    cases seatsOf q.flightId db with
    | none => rfl
    | some s =>
      simp [Function.comp]

/-- Witness for C4: the double increment at a concrete database, through
the amended contract. -/
theorem cancel_twice_contract_witness :
    ((⟨[flightTen], [resConfirmed], 2⟩ : DB).reservations.find?
      (fun r => r.id == 1) = some resConfirmed) ∧
    ((cancel_reservation 1
        (cancel_reservation 1 ⟨[flightTen], [resConfirmed], 2⟩).2).1 = true ∧
     seatsOf resConfirmed.flightId (cancel_reservation 1
        (cancel_reservation 1 ⟨[flightTen], [resConfirmed], 2⟩).2).2
       = (seatsOf resConfirmed.flightId ⟨[flightTen], [resConfirmed], 2⟩).map
           (fun s => s + 2)) :=
  ⟨rfl, (cancel_twice_contract ⟨[flightTen], [resConfirmed], 2⟩ 1).2 resConfirmed rfl⟩

/-! ### Claim C8 -/

/-- C8 counterexample: `get_user_bookings` applies no ordering: for a user
whose first-stored reservation has an earlier booking date than the
second, the rows come back in table order, which is not
most-recent-first. -/
theorem get_user_bookings_unsorted :
    (get_user_bookings true 7 ⟨[], [resEarly, resLate], 3⟩ = [resEarly, resLate]) ∧
    (resEarly.bookingDate = "2025-01-01") ∧
    (resLate.bookingDate = "2025-06-01") ∧
    ¬ List.Pairwise (fun a b : Reservation => b.bookingDate ≤ a.bookingDate)
      [resEarly, resLate] := by
  refine ⟨rfl, rfl, rfl, ?_⟩
  intro h
  have hle := (List.pairwise_cons.mp h).1 resLate (by simp)
  have hlt : ¬ (("2025-06-01" : String) ≤ "2025-01-01") := by
    intro hle2
    have h2 : ¬ (("2025-01-01" : String) < "2025-06-01") := not_lt.mpr hle2
    rw [String.lt_iff_toList_lt] at h2
    exact h2 (by decide)
  exact hlt hle

/-- C8 (amended): `get_user_bookings` returns exactly the reservations
owned by the user, in table order (no most-recent-first sorting), and
returns `[]` rather than an error when the ledger is not initialized;
`view_reservations` does sort most-recent-first by booking date, but it
only returns reservations whose flight row exists (inner join) and it
raises an error when the ledger is not initialized. -/
theorem listByUser_contract (uid : Int) (db : DB) (x : Reservation) :
    (x ∈ get_user_bookings true uid db ↔ x ∈ db.reservations ∧ x.userId = uid) ∧
    (get_user_bookings true uid db).Sublist db.reservations ∧
    get_user_bookings false uid db = [] ∧
    view_reservations false uid db = Except.error "no such table: reservations" ∧
    ∃ l, view_reservations true uid db = Except.ok l ∧
      List.Pairwise (fun a b : Reservation × Flight =>
        b.1.bookingDate ≤ a.1.bookingDate) l ∧
      l.Perm (reservationJoin uid db) := by
  refine ⟨?_, ?_, rfl, rfl, ?_⟩
  · simp [get_user_bookings, List.mem_filter]
  · simp only [get_user_bookings, if_true]
    exact List.filter_sublist _
  · refine ⟨_, rfl, ?_, sortListBy_perm _ _⟩
    refine sortListBy_pairwise _ ?_ ?_ ?_ _
    · intro a b h
      exact le_of_lt (of_decide_eq_true h)
    · intro a b h
      exact not_lt.mp (of_decide_eq_false h)
    · intro a b c hab hbc
      exact le_trans hbc hab

/-! ### Claim C9 -/

/-- C9 counterexample: two `book_ticket` calls that happen to use the same
random draw create two distinct reservations (ids 1 and 2) sharing one
ticket identifier, so ticket ids are not unique per reservation. -/
theorem book_ticket_ticket_collision :
    ((book_ticket "Asha Rao" "F1" "A1" "7" "None" none "2025-06-01" 5
        (book_ticket "Ravi Rao" "F1" "B1" "7" "None" none "2025-06-01" 5
          ⟨[flightFive], [], 1⟩).2).2.reservations.map (fun r => r.ticketId)
      = ["TKT-" ++ natRepr (randint 5 10000 99999),
         "TKT-" ++ natRepr (randint 5 10000 99999)]) ∧
    ((book_ticket "Asha Rao" "F1" "A1" "7" "None" none "2025-06-01" 5
        (book_ticket "Ravi Rao" "F1" "B1" "7" "None" none "2025-06-01" 5
          ⟨[flightFive], [], 1⟩).2).2.reservations.map (fun r => r.id) = [1, 2]) ∧
    ¬ ((book_ticket "Asha Rao" "F1" "A1" "7" "None" none "2025-06-01" 5
        (book_ticket "Ravi Rao" "F1" "B1" "7" "None" none "2025-06-01" 5
          ⟨[flightFive], [], 1⟩).2).2.reservations.map (fun r => r.ticketId)).Nodup := by
  have h1 : ((book_ticket "Asha Rao" "F1" "A1" "7" "None" none "2025-06-01" 5
      (book_ticket "Ravi Rao" "F1" "B1" "7" "None" none "2025-06-01" 5
        ⟨[flightFive], [], 1⟩).2).2.reservations.map (fun r => r.ticketId))
      = ["TKT-" ++ natRepr (randint 5 10000 99999),
         "TKT-" ++ natRepr (randint 5 10000 99999)] := rfl
  refine ⟨h1, rfl, ?_⟩
  rw [h1]
  simp

/-- C9 (amended): every successful `book_ticket` returns success, appends
exactly one reservation with status "Confirmed", booking date "now", the
caller's user id and flight id, and a ticket identifier matching
`TKT-` followed by exactly five digits, which is surfaced to the caller in
the success message; the identifier is a bare random draw with no
uniqueness check, so distinct reservations may share one (see the
collision counterexample). -/
theorem book_ticket_success_spec (pn fid seat uid extras today : String)
    (sel : Option Flight) (draw : Nat) (db : DB) (n : Int)
    (hpn : pn ≠ "") (hfid : fid ≠ "") (hseat : seat ≠ "") (huid : uid ≠ "")
    (hparse : strToInt? uid = some n) :
    ∃ row : Reservation,
      (book_ticket pn fid seat uid extras sel today draw db).2.reservations
        = db.reservations ++ [row] ∧
      row.status = "Confirmed" ∧
      matchesTKT row.ticketId ∧
      (book_ticket pn fid seat uid extras sel today draw db).1.1 = true ∧
      (book_ticket pn fid seat uid extras sel today draw db).1.2
        = "Ticket booked successfully! Your ticket ID is " ++ row.ticketId ∧
      row.bookingDate = today ∧ row.userId = n ∧ row.flightId = fid := by
  unfold book_ticket
  rw [if_neg (by simp [hpn, hfid, hseat, huid]), hparse]
  refine ⟨_, rfl, rfl, ?_, rfl, rfl, rfl, rfl, rfl⟩
  exact ticket_matchesTKT _ (Nat.le_add_right 10000 _) (by
    have : draw % 90000 < 90000 := Nat.mod_lt _ (by norm_num)
    simp only [randint]
    omega)

/-- Witness for C9 at a concrete booking. -/
theorem book_ticket_success_spec_witness :
    (("Asha Rao" : String) ≠ "" ∧ ("F1" : String) ≠ "" ∧ ("A1" : String) ≠ "" ∧
     ("7" : String) ≠ "" ∧ strToInt? "7" = some 7) ∧
    ∃ row : Reservation,
      (book_ticket "Asha Rao" "F1" "A1" "7" "None" none "2025-06-01" 5
        ⟨[flightFive], [], 1⟩).2.reservations
        = (⟨[flightFive], [], 1⟩ : DB).reservations ++ [row] ∧
      row.status = "Confirmed" ∧
      matchesTKT row.ticketId ∧
      (book_ticket "Asha Rao" "F1" "A1" "7" "None" none "2025-06-01" 5
        ⟨[flightFive], [], 1⟩).1.1 = true ∧
      (book_ticket "Asha Rao" "F1" "A1" "7" "None" none "2025-06-01" 5
        ⟨[flightFive], [], 1⟩).1.2
        = "Ticket booked successfully! Your ticket ID is " ++ row.ticketId ∧
      row.bookingDate = "2025-06-01" ∧ row.userId = 7 ∧ row.flightId = "F1" :=
  ⟨⟨by decide, by decide, by decide, by decide, by decide⟩,
   book_ticket_success_spec "Asha Rao" "F1" "A1" "7" "None" "2025-06-01" none 5
     ⟨[flightFive], [], 1⟩ 7 (by decide) (by decide) (by decide) (by decide)
     (by decide)⟩

/-! ### Claim C10 -/

/-- C10: the `flight_number` stored on a new reservation is derived from
the process-global selected-flight session value when present — formatted
"airline flightNumber" — and is the literal "FLIGHT-" ++ flight_id
otherwise; it is never read from the flights table (booking commutes with
any replacement of that table), so two calls with identical arguments can
record different values depending on the session state, and the stored
value need not match the offer referenced by flight_id. -/
theorem book_ticket_flight_number_spec (pn fid seat uid extras today : String)
    (sel : Flight) (draw : Nat) (db : DB) (n : Int) (fl : List Flight)
    (hpn : pn ≠ "") (hfid : fid ≠ "") (hseat : seat ≠ "") (huid : uid ≠ "")
    (hparse : strToInt? uid = some n) :
    (∃ row : Reservation,
      (book_ticket pn fid seat uid extras (some sel) today draw db).2.reservations
        = db.reservations ++ [row] ∧
      row.flightNumber = sel.airline ++ " " ++ sel.flightNumber) ∧
    (∃ row : Reservation,
      (book_ticket pn fid seat uid extras none today draw db).2.reservations
        = db.reservations ++ [row] ∧
      row.flightNumber = "FLIGHT-" ++ fid) ∧
    (∀ sel2 : Option Flight,
      book_ticket pn fid seat uid extras sel2 today draw
          { db with flights := fl }
        = ((book_ticket pn fid seat uid extras sel2 today draw db).1,
           { (book_ticket pn fid seat uid extras sel2 today draw db).2 with
             flights := fl })) ∧
    (sel.airline ++ " " ++ sel.flightNumber ≠ "FLIGHT-" ++ fid →
      ∃ row1 row2 : Reservation,
        (book_ticket pn fid seat uid extras (some sel) today draw db).2.reservations
          = db.reservations ++ [row1] ∧
        (book_ticket pn fid seat uid extras none today draw db).2.reservations
          = db.reservations ++ [row2] ∧
        row1.flightNumber ≠ row2.flightNumber) := by
  have hvalid : ¬ (pn = "" ∨ fid = "" ∨ seat = "" ∨ uid = "") := by
    simp [hpn, hfid, hseat, huid]
  constructor
  · unfold book_ticket
    simp only [if_neg hvalid, hparse]
    exact ⟨_, rfl, rfl⟩
  constructor
  · unfold book_ticket
    simp only [if_neg hvalid, hparse]
    exact ⟨_, rfl, rfl⟩
  constructor
  · intro sel2
    unfold book_ticket
    simp only [if_neg hvalid, hparse]
  · intro hne
    unfold book_ticket
    simp only [if_neg hvalid, hparse]
    exact ⟨_, _, rfl, rfl, hne⟩

/-- Witness for C10 at a concrete booking: with the session holding
`flightFive` the stored flight number is "Air India AI101"; with an empty
session it is "FLIGHT-F1". -/
theorem book_ticket_flight_number_spec_witness :
    (("Asha Rao" : String) ≠ "" ∧ ("F1" : String) ≠ "" ∧ ("A1" : String) ≠ "" ∧
     ("7" : String) ≠ "" ∧ strToInt? "7" = some 7 ∧
     flightFive.airline ++ " " ++ flightFive.flightNumber ≠ "FLIGHT-" ++ "F1") ∧
    ((∃ row : Reservation,
      (book_ticket "Asha Rao" "F1" "A1" "7" "None" (some flightFive) "2025-06-01" 5
        ⟨[flightFive], [], 1⟩).2.reservations
        = (⟨[flightFive], [], 1⟩ : DB).reservations ++ [row] ∧
      row.flightNumber = flightFive.airline ++ " " ++ flightFive.flightNumber) ∧
    (∃ row : Reservation,
      (book_ticket "Asha Rao" "F1" "A1" "7" "None" none "2025-06-01" 5
        ⟨[flightFive], [], 1⟩).2.reservations
        = (⟨[flightFive], [], 1⟩ : DB).reservations ++ [row] ∧
      row.flightNumber = "FLIGHT-" ++ "F1") ∧
    (∀ sel2 : Option Flight,
      book_ticket "Asha Rao" "F1" "A1" "7" "None" sel2 "2025-06-01" 5
          { (⟨[flightFive], [], 1⟩ : DB) with flights := [] }
        = ((book_ticket "Asha Rao" "F1" "A1" "7" "None" sel2 "2025-06-01" 5
              ⟨[flightFive], [], 1⟩).1,
           { (book_ticket "Asha Rao" "F1" "A1" "7" "None" sel2 "2025-06-01" 5
              ⟨[flightFive], [], 1⟩).2 with flights := [] })) ∧
    (flightFive.airline ++ " " ++ flightFive.flightNumber ≠ "FLIGHT-" ++ "F1" →
      ∃ row1 row2 : Reservation,
        (book_ticket "Asha Rao" "F1" "A1" "7" "None" (some flightFive) "2025-06-01" 5
          ⟨[flightFive], [], 1⟩).2.reservations
          = (⟨[flightFive], [], 1⟩ : DB).reservations ++ [row1] ∧
        (book_ticket "Asha Rao" "F1" "A1" "7" "None" none "2025-06-01" 5
          ⟨[flightFive], [], 1⟩).2.reservations
          = (⟨[flightFive], [], 1⟩ : DB).reservations ++ [row2] ∧
        row1.flightNumber ≠ row2.flightNumber)) :=
  ⟨⟨by decide, by decide, by decide, by decide, by decide, by decide⟩,
   book_ticket_flight_number_spec "Asha Rao" "F1" "A1" "7" "None" "2025-06-01"
     flightFive 5 ⟨[flightFive], [], 1⟩ 7 [] (by decide) (by decide) (by decide)
     (by decide) (by decide)⟩
